import Mathlib

/-!
Shallow embedding of the payment-gated agreement registration workflow of
link-sign-402 (server entry `src/server.ts`, `src/lib/agreement-oracle.ts`,
`src/lib/x402-payment.ts`, `src/lib/pinata.ts`, `src/lib/validation.ts`).

External collaborators (the viem RPC client, the Pinata storage SDK, the x402
facilitator) are modelled as environment oracles: each handler takes an
environment record holding the outcome of every external call it can make.
Pure library functions whose behaviour the code relies on (viem's
`encodeAbiParameters` address/bytes32 validation and `keccak256`) are embedded
directly; `keccak256` itself is kept abstract as a function parameter, since no
property here depends on the digest's internals.

Machine-level conventions: byte strings are `List Nat` (each entry < 256 in
intended use), hex strings keep their source representation `String`
("0x"-prefixed), block numbers are `Int` (TypeScript `bigint`).
-/

namespace LinkSign402

/-! ## Chains and network mapping (`agreement-oracle.ts`) -/

/-- The four viem chain configurations imported by `agreement-oracle.ts`. -/
inductive Chain
  | base
  | baseSepolia
  | sepolia
  | mainnet
deriving DecidableEq

/-- `networkToChainRef` from `agreement-oracle.ts`: CAIP-2 mapping with the
unrecognized network string returned unchanged. -/
def networkToChainRef (network : String) : String :=
  if network = "base-sepolia" then "eip155:84532"
  else if network = "base" then "eip155:8453"
  else if network = "sepolia" then "eip155:11155111"
  else if network = "mainnet" then "eip155:1"
  else network

/-- `chainForNetwork` from `agreement-oracle.ts`: the `default` switch arm
returns `baseSepolia`. -/
def chainForNetwork (network : String) : Chain :=
  if network = "base-sepolia" then .baseSepolia
  else if network = "base" then .base
  else if network = "sepolia" then .sepolia
  else if network = "mainnet" then .mainnet
  else .baseSepolia

/-! ## Hex strings and bytes -/

/-- Hex digit test, both cases, mirroring the character class `[0-9a-fA-F]`. -/
def isHexDigitChar (c : Char) : Bool :=
  (Char.ofNat 48 ≤ c && c ≤ Char.ofNat 57) ||
  (Char.ofNat 97 ≤ c && c ≤ Char.ofNat 102) ||
  (Char.ofNat 65 ≤ c && c ≤ Char.ofNat 70)

/-- Numeric value of one hex digit (0 for non-digits; only used under
`isHexDigitChar`). -/
def hexDigitVal (c : Char) : Nat :=
  if Char.ofNat 48 ≤ c && c ≤ Char.ofNat 57 then c.toNat - 48
  else if Char.ofNat 97 ≤ c && c ≤ Char.ofNat 102 then c.toNat - 87
  else if Char.ofNat 65 ≤ c && c ≤ Char.ofNat 70 then c.toNat - 55
  else 0

/-- Pairs of hex digits to bytes. -/
def hexCharsToBytes : List Char → List Nat
  | h :: l :: rest => (hexDigitVal h * 16 + hexDigitVal l) :: hexCharsToBytes rest
  | _ => []

/-- Bytes of a "0x"-prefixed hex string. -/
def hexToBytes (s : String) : List Nat :=
  hexCharsToBytes (s.toList.drop 2)

/-- Lower-case a hex string (viem lower-cases an address before encoding it). -/
def lowerHexStr (s : String) : String :=
  ⟨s.toList.map Char.toLower⟩

/-- The regex `^0x[a-fA-F0-9]{40}$` used by viem's address check
(`isAddress` with checksum validation off, as in `encodeAbiParameters`) and by
`validation.ts`'s `EVM_ADDRESS_REGEX`. -/
def isAddressHex (s : String) : Bool :=
  match s.toList with
  | '0' :: 'x' :: rest => rest.length = 40 && rest.all isHexDigitChar
  | _ => false

/-- The regex `^0x[0-9a-fA-F]{64}$` used by `assertBytes32` and by the
`/api/agreement/:id` id check; also the well-formedness viem demands of a
`bytes32` argument. -/
def isBytes32Hex (s : String) : Bool :=
  match s.toList with
  | '0' :: 'x' :: rest => rest.length = 64 && rest.all isHexDigitChar
  | _ => false

/-- Boolean substring test on strings (used to express "the error message
contains ..."). -/
def strContainsSubstr (s pat : String) : Bool :=
  s.toList.tails.any (fun t => pat.toList.isPrefixOf t)

/-- JavaScript `a || b` on two optional strings: first present, non-empty
(truthy) one. -/
def optTruthy (o : Option String) : Option String :=
  match o with
  | some s => if s = "" then none else some s
  | none => none

/-- JavaScript `a || b || ''`. -/
def jsOr (a b : Option String) : String :=
  match optTruthy a with
  | some s => s
  | none =>
    match optTruthy b with
    | some s => s
    | none => ""

/-! ## ABI encoding and `computeAgreementId` (`agreement-oracle.ts`) -/

/-- Errors thrown by viem's `encodeAbiParameters` for the parameter types used
here: `InvalidAddressError` and `AbiEncodingBytesSizeMismatchError`. -/
inductive AbiError
  | invalidAddress (address : String)
  | bytesSizeMismatch (value : String) (expectedSize : Nat)
deriving DecidableEq

/-- Rendering of the viem error messages (`Address "<a>" is invalid.`;
size-mismatch message). Used to reason about what the thrown error names. -/
def abiErrorMessage : AbiError → String
  | .invalidAddress a => "Address " ++ a ++ " is invalid."
  | .bytesSizeMismatch v n =>
      "Size of bytes " ++ v ++ " does not match expected size (bytes" ++
        toString n ++ ")."

/-- The two static ABI parameter types `computeAgreementId` encodes. -/
inductive AbiParamType
  | bytes32
  | address
deriving DecidableEq

/-- One prepared (head-encoded) parameter, as in viem's `prepareParam`:
a `bytes32` value is its 32 bytes, an `address` is validated, lower-cased and
left-padded to 32 bytes; malformed values throw. -/
def prepareParam : AbiParamType → String → Except AbiError (List Nat)
  | .bytes32, v =>
      if isBytes32Hex v then .ok (hexToBytes v)
      else .error (.bytesSizeMismatch v 32)
  | .address, v =>
      if isAddressHex v then .ok (List.replicate 12 0 ++ hexToBytes (lowerHexStr v))
      else .error (.invalidAddress v)

/-- Prepare a list of parameters in order, stopping at the first error, as
viem's `prepareParams` does. -/
def prepareParams : List (AbiParamType × String) → Except AbiError (List (List Nat))
  | [] => .ok []
  | (t, v) :: rest => do
      let e ← prepareParam t v
      let es ← prepareParams rest
      .ok (e :: es)

/-- viem's `encodeAbiParameters` restricted to the static types used by this
repository: the concatenation of the 32-byte head encodings. -/
def encodeAbiParameters (ps : List (AbiParamType × String)) : Except AbiError (List Nat) :=
  (prepareParams ps).map List.flatten

/-- `computeAgreementId` from `agreement-oracle.ts`:
`keccak256(encodeAbiParameters([bytes32, address, bytes32], [docHash, creator, paymentRef]))`.
The digest function is abstract; the `Except` carries the error
`encodeAbiParameters` throws on malformed input. -/
def computeAgreementId (keccak : List Nat → String)
    (docHash creator paymentRef : String) : Except AbiError String :=
  (encodeAbiParameters
      [(.bytes32, docHash), (.address, creator), (.bytes32, paymentRef)]).map keccak

/-- `assertEvmAddress` from `agreement-oracle.ts`: throws an error naming the
supplied `label` when the value is not an EVM address. -/
def assertEvmAddress (value : String) (label : String) : Except String Unit :=
  if isAddressHex value then .ok ()
  else .error ("Invalid " ++ label ++ " (expected EVM address): " ++ value)

/-- `assertBytes32` from `agreement-oracle.ts`. -/
def assertBytes32 (value : String) (label : String) : Except String Unit :=
  if isBytes32Hex value then .ok ()
  else .error ("Invalid " ++ label ++ " (expected bytes32 hash): " ++ value)

/-! ## Ledger adapter reads (`checkAgreementExists`, `checkHasSigned`) -/

/-- A thrown JavaScript error as consumed by `sendContractTransaction`:
`error?.cause?.reason` and `error?.message`, each possibly absent. -/
structure JsError where
  causeReason : Option String
  message : Option String
deriving DecidableEq

/-- `error?.cause?.reason || error?.message || ''` from
`sendContractTransaction`. -/
def jsErrorText (e : JsError) : String :=
  jsOr e.causeReason e.message

/-- Parameters of `checkAgreementExists`. -/
structure ExistsParams where
  rpcUrl : String
  network : String
  contractAddress : String
  agreementId : String

/-- Parameters of `checkHasSigned`. -/
structure HasSignedParams where
  rpcUrl : String
  network : String
  contractAddress : String
  agreementId : String
  signer : String

/-- Environment oracle for the read-only `readContract` calls: given the chain
the client was created with, the contract address and the call arguments, the
RPC either yields the contract's boolean answer or throws. -/
structure LedgerReadEnv where
  readAgreementExists : Chain → String → String → Except String Bool
  readHasSigned : Chain → String → String → String → Except String Bool

/-- `checkAgreementExists` from `agreement-oracle.ts`: `try { return
Boolean(await readContract(...)) } catch { warn; return false }`. The outer
`Except` is what the JavaScript function itself can throw. -/
def checkAgreementExists (env : LedgerReadEnv) (p : ExistsParams) :
    Except String Bool :=
  let chain := chainForNetwork p.network
  match env.readAgreementExists chain p.contractAddress p.agreementId with
  | .ok b => .ok b
  | .error _ => .ok false

/-- `checkHasSigned` from `agreement-oracle.ts`, same conservative catch. -/
def checkHasSigned (env : LedgerReadEnv) (p : HasSignedParams) :
    Except String Bool :=
  let chain := chainForNetwork p.network
  match env.readHasSigned chain p.contractAddress p.agreementId p.signer with
  | .ok b => .ok b
  | .error _ => .ok false

/-! ## Ledger adapter writes (`sendContractTransaction`) -/

/-- Result record of `sendContractTransaction`. -/
structure TxResult where
  txHash : String
  rpcAccepted : Bool
  confirmed : Bool
deriving DecidableEq

/-- Environment oracle for one write attempt: outcomes of
`simulateContract`, `prepareTransactionRequest`+`signTransaction` (which yield
the serialized signed transaction bytes), `sendRawTransaction` and
`waitForTransactionReceipt`, each as a function of the chain the clients were
created with. -/
structure TxEnv where
  simulateResult : Chain → Except JsError Unit
  prepareSignResult : Chain → Except JsError (List Nat)
  sendRawResult : Chain → Except JsError Unit
  receiptResult : Chain → Except JsError Unit

/-- `sendContractTransaction` from `agreement-oracle.ts`: simulate, sign,
compute `txHash = keccak256(serializedTransaction)` locally, broadcast; on a
broadcast error whose derived text contains "already known", return the local
hash with `rpcAccepted := false` (awaiting the receipt first when confirmation
was requested); rethrow any other broadcast error. -/
def sendContractTransaction (keccak : List Nat → String) (env : TxEnv)
    (network : String) (waitForConfirmation : Bool) : Except JsError TxResult :=
  let chain := chainForNetwork network
  match env.simulateResult chain with
  | .error e => .error e
  | .ok _ =>
    match env.prepareSignResult chain with
    | .error e => .error e
    | .ok serializedTransaction =>
      let txHash := keccak serializedTransaction
      match env.sendRawResult chain with
      | .ok _ =>
        if waitForConfirmation then
          match env.receiptResult chain with
          | .error e => .error e
          | .ok _ => .ok ⟨txHash, true, true⟩
        else .ok ⟨txHash, true, false⟩
      | .error e =>
        if strContainsSubstr (jsErrorText e) "already known" then
          if waitForConfirmation then
            match env.receiptResult chain with
            | .error e2 => .error e2
            | .ok _ => .ok ⟨txHash, false, true⟩
          else .ok ⟨txHash, false, false⟩
        else .error e

/-- `registerAgreement` from `agreement-oracle.ts`: delegates to
`sendContractTransaction` with the registration calldata (the calldata itself
is absorbed into the oracle's serialized transaction). -/
def registerAgreement (keccak : List Nat → String) (env : TxEnv)
    (network : String) (waitForConfirmation : Bool) : Except JsError TxResult :=
  sendContractTransaction keccak env network waitForConfirmation

/-- `recordSignature` from `agreement-oracle.ts`: same delegation as
`registerAgreement`. -/
def recordSignature (keccak : List Nat → String) (env : TxEnv)
    (network : String) (waitForConfirmation : Bool) : Except JsError TxResult :=
  sendContractTransaction keccak env network waitForConfirmation

/-! ## Payment gate (`x402-payment.ts`) -/

/-- External-call events a request can perform, recorded as a trace so that
"X was never called" and "X precedes Y" are statable. -/
inductive Eff
  | upload
  | payment
  | verify
  | settle
  | checkExists
  | checkSigned
  | register
  | recordSig
deriving DecidableEq

/-- `PaymentResult` from `x402-payment.ts`: `PaymentSuccess` with the
settlement transaction hash and payer, or `PaymentError` with a message, an
HTTP status and an optional `PAYMENT-REQUIRED` header value. -/
inductive PaymentResult
  | success (txHash : String) (payer : String)
  | failure (error : String) (status : Nat) (paymentRequiredHeader : Option String)
deriving DecidableEq

/-- Result of `resourceServer.verifyPayment`. -/
structure VerifyResult where
  isValid : Bool
  invalidReason : Option String

/-- Result of `resourceServer.settlePayment`. -/
structure SettleResult where
  success : Bool
  transaction : String
  payer : Option String

/-- Environment of one `processPayment` call: the two request headers it
inspects, the outcome of `base64DecodeJson` on the chosen header, the
facilitator's verify and settle answers, and the base64 encoding of the
payment-required challenge (`base64EncodeJson(paymentRequired)`, kept
abstract). -/
structure PaymentEnv where
  paymentSignatureHeader : Option String
  xPaymentHeader : Option String
  decodeResult : Except Unit String
  verifyResult : VerifyResult
  settleResult : SettleResult
  paymentRequiredEncoding : String

/-- The header `processPayment` acts on:
`c.req.header("PAYMENT-SIGNATURE") || c.req.header("X-PAYMENT")`. -/
def paymentHeaderOf (env : PaymentEnv) : Option String :=
  match optTruthy env.paymentSignatureHeader with
  | some s => some s
  | none => optTruthy env.xPaymentHeader

/-- `processPayment` from `x402-payment.ts`, paired with the trace of
facilitator calls it makes: missing header → 402 challenge with no facilitator
call; undecodable header → 400 with no facilitator call; verify failure → 402
after `[.verify]`; settle failure → 402 after `[.verify, .settle]`; otherwise
success carrying `settleResult.transaction`. -/
def processPayment (env : PaymentEnv) : PaymentResult × List Eff :=
  match paymentHeaderOf env with
  | none =>
      (.failure "Payment required" 402 (some env.paymentRequiredEncoding), [])
  | some _ =>
    match env.decodeResult with
    | .error _ => (.failure "Invalid payment header format" 400 none, [])
    | .ok _ =>
      if env.verifyResult.isValid then
        if env.settleResult.success then
          (.success env.settleResult.transaction
              (jsOr env.settleResult.payer (some "unknown")), [.verify, .settle])
        else (.failure "Payment settlement failed" 402 none, [.verify, .settle])
      else
        (.failure (jsOr env.verifyResult.invalidReason
            (some "Payment verification failed")) 402 none, [.verify])

/-! ## Registration orchestrator (`server.ts` route handlers) -/

/-- The slice of `config.blockchain` the handlers consult. -/
structure ServerConfig where
  rpcUrl : String
  network : String
  contractAddress : String
  chainRef : Option String
  contractStartBlock : Int

/-- `config.blockchain.chainRef || networkToChainRef(config.blockchain.network)`. -/
def effectiveChainRef (cfg : ServerConfig) : String :=
  jsOr cfg.chainRef (some (networkToChainRef cfg.network))

/-- `getAgreementLink` from `server.ts`. -/
def getAgreementLink (id : String) : String :=
  "https://linksignx402.xyz/a/" ++ id

/-- Validated body of `POST /api/create` (output of `validateCreateBody`,
whose JSON/base64 juggling is abstracted as an environment outcome). -/
structure CreateInput where
  fileName : String
  creatorAddress : String
  fileBytes : List Nat

/-- Validated body of `POST /api/sign` (output of `validateSignBody`). -/
structure SignInput where
  agreementId : String
  signerAddress : String

/-- Success body of `POST /api/create`. `txHash` is `none` for JSON `null`
(already-existed branch); `confirmed` and `alreadyExisted` are `none` when the
corresponding branch's response omits the field. -/
structure CreateOkBody where
  agreementId : String
  docHash : String
  cid : String
  creator : String
  paymentRef : String
  chainRef : String
  txHash : Option String
  confirmed : Option Bool
  link : String
  alreadyExisted : Option Bool
deriving DecidableEq

/-- An HTTP response of the create route: success JSON, or an error JSON
`(status, {error, requestId})` optionally accompanied by a
`PAYMENT-REQUIRED` header. -/
inductive CreateResult
  | ok (body : CreateOkBody)
  | err (status : Nat) (message : String) (paymentRequiredHeader : Option String)
deriving DecidableEq

/-- Environment of one `POST /api/create` request. -/
structure CreateEnv where
  bodyValidation : Except String CreateInput
  uploadResult : Except String String
  payment : PaymentEnv
  reads : LedgerReadEnv
  txEnv : TxEnv

/-- The `POST /api/create` handler from `server.ts`, with its trace of
external-call events: validate (a `ValidationError` is turned into a 400 by
`app.onError`), hash, upload to IPFS (failure → 502 before any payment
interaction), `processPayment`, `computeAgreementId` (a thrown encoding error
reaches `app.onError` as a 500), idempotency check via
`checkAgreementExists`, then either the already-existed short-circuit or
`registerAgreement` with `waitForConfirmation := true`. -/
def createHandler (keccak : List Nat → String) (cfg : ServerConfig)
    (env : CreateEnv) : CreateResult × List Eff :=
  match env.bodyValidation with
  | .error msg => (.err 400 msg none, [])
  | .ok input =>
    let docHash := keccak input.fileBytes
    match env.uploadResult with
    | .error _ => (.err 502 "IPFS upload failed" none, [.upload])
    | .ok cid =>
      match processPayment env.payment with
      | (.failure e st hdr, peffs) =>
          (.err st e hdr, .upload :: .payment :: peffs)
      | (.success ptx _, peffs) =>
        let paymentRef := ptx
        let chainRef := effectiveChainRef cfg
        match computeAgreementId keccak docHash input.creatorAddress paymentRef with
        | .error e =>
            (.err 500 (abiErrorMessage e) none, .upload :: .payment :: peffs)
        | .ok agreementId =>
          let effs := .upload :: .payment :: peffs ++ [.checkExists]
          match checkAgreementExists env.reads
              ⟨cfg.rpcUrl, cfg.network, cfg.contractAddress, agreementId⟩ with
          | .error e => (.err 500 e none, effs)
          | .ok alreadyExists =>
            if alreadyExists then
              (.ok ⟨agreementId, docHash, cid, input.creatorAddress, paymentRef,
                  chainRef, none, none, getAgreementLink agreementId, some true⟩,
                effs)
            else
              match registerAgreement keccak env.txEnv cfg.network true with
              | .error e =>
                  (.err 500 (e.message.getD "") none, effs ++ [.register])
              | .ok tx =>
                  (.ok ⟨agreementId, docHash, cid, input.creatorAddress,
                      paymentRef, chainRef, some tx.txHash, some tx.confirmed,
                      getAgreementLink agreementId, none⟩,
                    effs ++ [.register])

/-- Success body of `POST /api/sign`. -/
structure SignOkBody where
  agreementId : String
  signer : String
  paymentRef : String
  chainRef : String
  txHash : String
  confirmed : Bool
  link : String
deriving DecidableEq

/-- An HTTP response of the sign route. -/
inductive SignResult
  | ok (body : SignOkBody)
  | err (status : Nat) (message : String) (paymentRequiredHeader : Option String)
deriving DecidableEq

/-- Environment of one `POST /api/sign` request. -/
structure SignEnv where
  bodyValidation : Except String SignInput
  reads : LedgerReadEnv
  payment : PaymentEnv
  txEnv : TxEnv

/-- The `POST /api/sign` handler from `server.ts`, with its trace: validate,
`checkAgreementExists` (false → 404 before any payment processing),
`checkHasSigned` (true → 409, also before payment), then `processPayment` and
`recordSignature` with `waitForConfirmation := true`. -/
def signHandler (keccak : List Nat → String) (cfg : ServerConfig)
    (env : SignEnv) : SignResult × List Eff :=
  match env.bodyValidation with
  | .error msg => (.err 400 msg none, [])
  | .ok input =>
    match checkAgreementExists env.reads
        ⟨cfg.rpcUrl, cfg.network, cfg.contractAddress, input.agreementId⟩ with
    | .error e => (.err 500 e none, [.checkExists])
    | .ok exAns =>
      if !exAns then (.err 404 "Agreement not found" none, [.checkExists])
      else
        match checkHasSigned env.reads
            ⟨cfg.rpcUrl, cfg.network, cfg.contractAddress, input.agreementId,
              input.signerAddress⟩ with
        | .error e => (.err 500 e none, [.checkExists, .checkSigned])
        | .ok signedAns =>
          if signedAns then
            (.err 409 "Already signed" none, [.checkExists, .checkSigned])
          else
            match processPayment env.payment with
            | (.failure e st hdr, peffs) =>
                (.err st e hdr, .checkExists :: .checkSigned :: .payment :: peffs)
            | (.success ptx _, peffs) =>
              let paymentRef := ptx
              let chainRef := effectiveChainRef cfg
              let effs := .checkExists :: .checkSigned :: .payment :: peffs
              match recordSignature keccak env.txEnv cfg.network true with
              | .error e =>
                  (.err 500 (e.message.getD "") none, effs ++ [.recordSig])
              | .ok tx =>
                  (.ok ⟨input.agreementId, input.signerAddress, paymentRef,
                      chainRef, tx.txHash, tx.confirmed,
                      getAgreementLink input.agreementId⟩,
                    effs ++ [.recordSig])

/-! ## Agreement lookup (`GET /api/agreement/:id`) -/

/-- One event emitted by the oracle contract. -/
inductive LedgerEvent
  | created (agreementId docHash cid creator paymentRef chainRef : String)
  | signed (agreementId signer paymentRef chainRef : String)
deriving DecidableEq

/-- One log entry on the chain: emitting contract address, block number
(TypeScript `bigint`, hence `Int`) and decoded event. -/
structure LedgerLog where
  address : String
  blockNumber : Int
  event : LedgerEvent
deriving DecidableEq

/-- Does a log match a `getLogs` query for `AgreementCreated` filtered on an
`agreementId`? -/
def matchesCreated (contract id : String) (l : LedgerLog) : Bool :=
  l.address = contract &&
    match l.event with
    | .created aid _ _ _ _ _ => aid = id
    | .signed _ _ _ _ => false

/-- Does a log match a `getLogs` query for `AgreementSigned` filtered on an
`agreementId`? -/
def matchesSigned (contract id : String) (l : LedgerLog) : Bool :=
  l.address = contract &&
    match l.event with
    | .created _ _ _ _ _ _ => false
    | .signed aid _ _ _ => aid = id

/-- `publicClient.getLogs` over a block window, restricted to the matching
predicate: the chain's logs whose block number lies in
`[fromBlock, toBlock]`. -/
def getLogs (ledger : List LedgerLog) (pred : LedgerLog → Bool)
    (fromBlock toBlock : Int) : List LedgerLog :=
  ledger.filter (fun l =>
    pred l && decide (fromBlock ≤ l.blockNumber) &&
      decide (l.blockNumber ≤ toBlock))

/-- The `fromBlock` computation of `GET /api/agreement/:id`:
`currentBlock > startBlock + MAX_BLOCK_RANGE ? currentBlock - MAX_BLOCK_RANGE : startBlock`
with `MAX_BLOCK_RANGE = 99_999`. -/
def logWindowStart (currentBlock startBlock : Int) : Int :=
  if currentBlock > startBlock + 99999 then currentBlock - 99999 else startBlock

/-- One signer entry of the lookup response. -/
structure SignerView where
  address : String
  paymentRef : String
  chainRef : String
deriving DecidableEq

/-- Success body of `GET /api/agreement/:id` (presentation-only explorer URL
strings are omitted; all data fields are kept). -/
structure AgreementView where
  agreementId : String
  docHash : String
  cid : String
  creator : String
  creatorPaymentRef : String
  creatorChainRef : String
  link : String
  signers : List SignerView
deriving DecidableEq

/-- An HTTP response of the lookup route. -/
inductive GetResult
  | ok (body : AgreementView)
  | err (status : Nat) (message : String)
deriving DecidableEq

/-- Environment of one `GET /api/agreement/:id` request: current block height
and the chain's log history. -/
structure GetEnv where
  currentBlock : Int
  ledger : List LedgerLog

/-- Projection of a matching `AgreementCreated` log into the response body. -/
def viewOfCreated (id : String) (signedLogs : List LedgerLog) :
    LedgerEvent → AgreementView
  | .created aid docHash cid creator paymentRef chainRef =>
      ⟨aid, docHash, cid, creator, paymentRef, chainRef, getAgreementLink id,
        signedLogs.map (fun l =>
          match l.event with
          | .signed _ signer pRef cRef => ⟨signer, pRef, cRef⟩
          | .created _ _ _ _ _ _ => ⟨"", "", ""⟩)⟩
  | .signed _ _ _ _ => ⟨"", "", "", "", "", "", "", []⟩

/-- The `GET /api/agreement/:id` handler from `server.ts`: regex-check the id
(400), scan `AgreementCreated` logs over
`[logWindowStart currentBlock startBlock, currentBlock]`, 404 when the scan
finds nothing, otherwise aggregate `AgreementSigned` logs from the creation
block onward. -/
def getAgreementHandler (cfg : ServerConfig) (env : GetEnv) (id : String) :
    GetResult :=
  if !isBytes32Hex id then .err 400 "Invalid agreementId"
  else
    let fromBlock := logWindowStart env.currentBlock cfg.contractStartBlock
    let createdLogs :=
      getLogs env.ledger (matchesCreated cfg.contractAddress id) fromBlock
        env.currentBlock
    match createdLogs.head? with
    | none => .err 404 "Agreement not found"
    | some createdLog =>
      let creationBlock := createdLog.blockNumber
      let signedLogs :=
        getLogs env.ledger (matchesSigned cfg.contractAddress id) creationBlock
          env.currentBlock
      .ok (viewOfCreated id signedLogs createdLog.event)

/-! ## Claim theorems -/

/-- Claim C2: `computeAgreementId` is a deterministic pure function: on
well-formed fixed-width inputs it returns the keccak256 digest of the
fixed-width ABI encoding of the three fields in order — the 32 bytes of
`docHash`, the address left-padded to 32 bytes, the 32 bytes of
`paymentRef` — and calling it twice on the same inputs yields the same
output. -/
theorem c2_computeAgreementId_deterministic (keccak : List Nat → String)
    (d c p : String) (hd : isBytes32Hex d = true) (hc : isAddressHex c = true)
    (hp : isBytes32Hex p = true) :
    computeAgreementId keccak d c p =
      .ok (keccak (hexToBytes d ++
        (List.replicate 12 0 ++ hexToBytes (lowerHexStr c)) ++ hexToBytes p)) ∧
    computeAgreementId keccak d c p = computeAgreementId keccak d c p := by
  refine ⟨?_, rfl⟩
  simp [computeAgreementId, encodeAbiParameters, prepareParams, prepareParam,
    hd, hc, hp, Except.map, bind, Except.bind, List.flatten, List.append_assoc]

/-- Witness for C2 at concrete well-formed inputs and a concrete digest
function. -/
theorem c2_computeAgreementId_deterministic_witness :
    computeAgreementId (fun bs => toString bs.length)
        "0x0000000000000000000000000000000000000000000000000000000000000001"
        "0xAb5801a7D398351b8bE11C439e05C5B3259aeC9B"
        "0x00000000000000000000000000000000000000000000000000000000000000ff" =
      .ok (toString (96 : Nat)) := by
  have h := (c2_computeAgreementId_deterministic (fun bs => toString bs.length)
      "0x0000000000000000000000000000000000000000000000000000000000000001"
      "0xAb5801a7D398351b8bE11C439e05C5B3259aeC9B"
      "0x00000000000000000000000000000000000000000000000000000000000000ff"
      (by decide) (by decide) (by decide)).1
  rw [h]
  rfl

/-- Counterexample for claim C7 as stated: with a creator address of the wrong
width, `computeAgreementId` does reject (no digest is produced), but the
thrown error is viem's invalid-address error, which carries the offending
value and does not name the `creator` field. -/
theorem c7_counterexample :
    computeAgreementId (fun _ => "")
        "0x0000000000000000000000000000000000000000000000000000000000000001"
        "0x1234"
        "0x0000000000000000000000000000000000000000000000000000000000000002" =
      .error (.invalidAddress "0x1234") ∧
    strContainsSubstr (abiErrorMessage (.invalidAddress "0x1234")) "creator"
        = false ∧
    strContainsSubstr (abiErrorMessage (.invalidAddress "0x1234"))
        "creatorAddress" = false := by
  refine ⟨by rfl, by decide, by decide⟩

/-- Claim C7, amended: `computeAgreementId` rejects a creator address that is
not a well-formed 20-byte hex address — in particular one shorter or longer
than 20 bytes — with an invalid-address error that carries the offending
value (the message reads `Address <value> is invalid.` and does not name the
creator field), rather than silently producing a digest from the malformed
input. -/
theorem c7_rejects_malformed_creator (keccak : List Nat → String)
    (d c p : String) (hd : isBytes32Hex d = true)
    (hc : isAddressHex c = false) :
    computeAgreementId keccak d c p = .error (.invalidAddress c) ∧
    abiErrorMessage (.invalidAddress c) =
      "Address " ++ c ++ " is invalid." := by
  refine ⟨?_, rfl⟩
  simp [computeAgreementId, encodeAbiParameters, prepareParams, prepareParam,
    hd, hc, Except.map, bind, Except.bind]

/-- Witness for the amended C7 at a concrete 2-byte creator address. -/
theorem c7_rejects_malformed_creator_witness :
    computeAgreementId (fun _ => "")
        "0x0000000000000000000000000000000000000000000000000000000000000001"
        "0x1235"
        "0x0000000000000000000000000000000000000000000000000000000000000002" =
      .error (.invalidAddress "0x1235") :=
  (c7_rejects_malformed_creator (fun _ => "")
      "0x0000000000000000000000000000000000000000000000000000000000000001"
      "0x1235"
      "0x0000000000000000000000000000000000000000000000000000000000000002"
      (by decide) (by decide)).1

/-- Claim C10: for every network string outside the four supported names, the
adapter falls back to the Base Sepolia chain configuration — `chainForNetwork`
returns `baseSepolia`, so every read and write behaves exactly as on
`"base-sepolia"` — while `networkToChainRef` returns the unrecognized string
unchanged. -/
theorem c10_unknown_network_fallback (n : String)
    (h1 : n ≠ "base-sepolia") (h2 : n ≠ "base") (h3 : n ≠ "sepolia")
    (h4 : n ≠ "mainnet") :
    chainForNetwork n = Chain.baseSepolia ∧
    networkToChainRef n = n ∧
    (∀ env rpc contract aid,
      checkAgreementExists env ⟨rpc, n, contract, aid⟩ =
        checkAgreementExists env ⟨rpc, "base-sepolia", contract, aid⟩) ∧
    (∀ env rpc contract aid s,
      checkHasSigned env ⟨rpc, n, contract, aid, s⟩ =
        checkHasSigned env ⟨rpc, "base-sepolia", contract, aid, s⟩) ∧
    (∀ keccak env w,
      sendContractTransaction keccak env n w =
        sendContractTransaction keccak env "base-sepolia" w) := by
  refine ⟨?_, ?_, ?_, ?_, ?_⟩ <;>
    simp [chainForNetwork, networkToChainRef, h1, h2, h3, h4,
      checkAgreementExists, checkHasSigned, sendContractTransaction]

/-- Witness for C10 at the concrete unsupported network `"polygon"`. -/
theorem c10_unknown_network_fallback_witness :
    chainForNetwork "polygon" = Chain.baseSepolia ∧
    networkToChainRef "polygon" = "polygon" :=
  ⟨(c10_unknown_network_fallback "polygon" (by decide) (by decide) (by decide)
      (by decide)).1,
    (c10_unknown_network_fallback "polygon" (by decide) (by decide) (by decide)
      (by decide)).2.1⟩

/-- Claim C6: `checkAgreementExists` and `checkHasSigned` never propagate an
error: whenever the underlying ledger read throws, they return `false`, and
they return the ledger's boolean answer otherwise. -/
theorem c6_reads_never_throw (env : LedgerReadEnv) (pE : ExistsParams)
    (pS : HasSignedParams) :
    (∀ e, env.readAgreementExists (chainForNetwork pE.network)
        pE.contractAddress pE.agreementId = .error e →
      checkAgreementExists env pE = .ok false) ∧
    (∀ b, env.readAgreementExists (chainForNetwork pE.network)
        pE.contractAddress pE.agreementId = .ok b →
      checkAgreementExists env pE = .ok b) ∧
    (∀ msg, checkAgreementExists env pE ≠ .error msg) ∧
    (∀ e, env.readHasSigned (chainForNetwork pS.network) pS.contractAddress
        pS.agreementId pS.signer = .error e →
      checkHasSigned env pS = .ok false) ∧
    (∀ b, env.readHasSigned (chainForNetwork pS.network) pS.contractAddress
        pS.agreementId pS.signer = .ok b →
      checkHasSigned env pS = .ok b) ∧
    (∀ msg, checkHasSigned env pS ≠ .error msg) := by
  refine ⟨fun e h => ?_, fun b h => ?_, fun msg => ?_, fun e h => ?_,
    fun b h => ?_, fun msg => ?_⟩
  · simp [checkAgreementExists, h]
  · simp [checkAgreementExists, h]
  · simp only [checkAgreementExists]
    cases hr : env.readAgreementExists (chainForNetwork pE.network)
        pE.contractAddress pE.agreementId <;> simp [hr]
  · simp [checkHasSigned, h]
  · simp [checkHasSigned, h]
  · simp only [checkHasSigned]
    cases hr : env.readHasSigned (chainForNetwork pS.network)
        pS.contractAddress pS.agreementId pS.signer <;> simp [hr]

/-- Witness for C6: a read that throws yields `.ok false` from both
functions. -/
theorem c6_reads_never_throw_witness :
    checkAgreementExists
        ⟨fun _ _ _ => .error "transport down", fun _ _ _ _ => .error "transport down"⟩
        ⟨"http://rpc", "base-sepolia", "0xc0", "0xa0"⟩ = .ok false ∧
    checkHasSigned
        ⟨fun _ _ _ => .error "transport down", fun _ _ _ _ => .error "transport down"⟩
        ⟨"http://rpc", "base-sepolia", "0xc0", "0xa0", "0x50"⟩ = .ok false :=
  ⟨(c6_reads_never_throw
      ⟨fun _ _ _ => .error "transport down", fun _ _ _ _ => .error "transport down"⟩
      ⟨"http://rpc", "base-sepolia", "0xc0", "0xa0"⟩
      ⟨"http://rpc", "base-sepolia", "0xc0", "0xa0", "0x50"⟩).1 "transport down" rfl,
    (c6_reads_never_throw
      ⟨fun _ _ _ => .error "transport down", fun _ _ _ _ => .error "transport down"⟩
      ⟨"http://rpc", "base-sepolia", "0xc0", "0xa0"⟩
      ⟨"http://rpc", "base-sepolia", "0xc0", "0xa0", "0x50"⟩).2.2.2.1
      "transport down" rfl⟩

/-- Counterexample for claim C5 as stated: a broadcast error whose `message`
contains "already known" but whose `cause.reason` is present with different
text is rethrown, because the adapter consults `cause.reason` first. -/
theorem c5_counterexample :
    strContainsSubstr ((JsError.mk (some "nonce too low")
        (some "already known")).message.getD "") "already known" = true ∧
    sendContractTransaction (fun _ => "0xfeed")
        ⟨fun _ => .ok (), fun _ => .ok [1, 2], fun _ =>
          .error ⟨some "nonce too low", some "already known"⟩, fun _ => .ok ()⟩
        "base-sepolia" true =
      .error ⟨some "nonce too low", some "already known"⟩ := by
  exact ⟨by decide, by rfl⟩

/-- Claim C5, amended: when broadcasting raises an error whose derived error
text — `cause.reason` when present and non-empty, otherwise `message` —
contains "already known", the adapter returns the transaction hash computed
locally as keccak256 of the serialized signed transaction, with
`rpcAccepted = false` and with `confirmed = true` exactly when confirmation
was requested (after awaiting the receipt), `confirmed = false` otherwise;
any other broadcast error is rethrown. -/
theorem c5_already_known_not_an_error (keccak : List Nat → String)
    (env : TxEnv) (network : String) (st : List Nat) (e : JsError)
    (hsim : env.simulateResult (chainForNetwork network) = .ok ())
    (hsig : env.prepareSignResult (chainForNetwork network) = .ok st)
    (hsend : env.sendRawResult (chainForNetwork network) = .error e) :
    (strContainsSubstr (jsErrorText e) "already known" = true →
      (env.receiptResult (chainForNetwork network) = .ok () →
        sendContractTransaction keccak env network true =
          .ok ⟨keccak st, false, true⟩) ∧
      sendContractTransaction keccak env network false =
        .ok ⟨keccak st, false, false⟩) ∧
    (strContainsSubstr (jsErrorText e) "already known" = false →
      ∀ w, sendContractTransaction keccak env network w = .error e) := by
  constructor
  · intro hak
    constructor
    · intro hrec
      simp [sendContractTransaction, hsim, hsig, hsend, hak, hrec]
    · simp [sendContractTransaction, hsim, hsig, hsend, hak]
  · intro hak w
    simp [sendContractTransaction, hsim, hsig, hsend, hak]

/-- Witness for the amended C5: an "already known" broadcast rejection with
confirmation requested returns the local hash, unaccepted but confirmed. -/
theorem c5_already_known_not_an_error_witness :
    sendContractTransaction (fun bs => toString bs.length)
        ⟨fun _ => .ok (), fun _ => .ok [1, 2, 3], fun _ =>
          .error ⟨none, some "transaction already known by the pool"⟩,
          fun _ => .ok ()⟩
        "base-sepolia" true =
      .ok ⟨toString (3 : Nat), false, true⟩ :=
  ((c5_already_known_not_an_error (fun bs => toString bs.length)
      ⟨fun _ => .ok (), fun _ => .ok [1, 2, 3], fun _ =>
        .error ⟨none, some "transaction already known by the pool"⟩,
        fun _ => .ok ()⟩
      "base-sepolia" [1, 2, 3]
      ⟨none, some "transaction already known by the pool"⟩
      rfl rfl rfl).1 (by decide)).1 rfl

/-- Claim C8: a payment-gated request carrying a payment-proof header that
cannot be decoded fails fast with a 400 result and makes no facilitator call:
neither `verifyPayment` nor `settlePayment` appears in the trace. -/
theorem c8_undecodable_proof_no_facilitator (env : PaymentEnv) (h : String)
    (hhdr : paymentHeaderOf env = some h)
    (hdec : env.decodeResult = .error ()) :
    processPayment env = (.failure "Invalid payment header format" 400 none, []) ∧
    Eff.verify ∉ (processPayment env).2 ∧
    Eff.settle ∉ (processPayment env).2 := by
  have hp : processPayment env =
      (.failure "Invalid payment header format" 400 none, []) := by
    simp [processPayment, hhdr, hdec]
  exact ⟨hp, by simp [hp], by simp [hp]⟩

/-- Witness for C8: a present but undecodable payment header. -/
theorem c8_undecodable_proof_no_facilitator_witness :
    processPayment
        ⟨some "not-base64!", none, .error (), ⟨true, none⟩,
          ⟨true, "0xabc", none⟩, "enc"⟩ =
      (.failure "Invalid payment header format" 400 none, []) :=
  (c8_undecodable_proof_no_facilitator
      ⟨some "not-base64!", none, .error (), ⟨true, none⟩, ⟨true, "0xabc", none⟩,
        "enc"⟩
      "not-base64!" rfl rfl).1

/-- Helper: `processPayment` only ever performs the facilitator calls
`verify` and then possibly `settle`. -/
theorem processPayment_trace_cases (env : PaymentEnv) :
    (processPayment env).2 = [] ∨ (processPayment env).2 = [Eff.verify] ∨
    (processPayment env).2 = [Eff.verify, Eff.settle] := by
  unfold processPayment
  cases hh : paymentHeaderOf env with
  | none => simp
  | some sv =>
    cases hd : env.decodeResult with
    | error u => simp
    | ok dv =>
      by_cases hv : env.verifyResult.isValid
      · by_cases hs : env.settleResult.success
        · simp [hv, hs]
        · simp [hv, hs]
      · simp [hv]

/-- Helper: every trace of the create handler is empty or starts with the
IPFS upload event. -/
theorem createHandler_trace_head (keccak : List Nat → String)
    (cfg : ServerConfig) (env : CreateEnv) :
    (createHandler keccak cfg env).2 = [] ∨
    ∃ rest, (createHandler keccak cfg env).2 = Eff.upload :: rest := by
  rcases hb : env.bodyValidation with m | input
  · simp [createHandler, hb]
  · rcases hu : env.uploadResult with m | cid
    · simp [createHandler, hb, hu]
    · rcases hp : processPayment env.payment with ⟨pr, peffs⟩
      rcases pr with ⟨t, pyr⟩ | ⟨e, st, hdr⟩
      · rcases hc : computeAgreementId keccak (keccak input.fileBytes)
            input.creatorAddress t with e | aid
        · simp [createHandler, hb, hu, hp, hc]
        · rcases hx : checkAgreementExists env.reads
              ⟨cfg.rpcUrl, cfg.network, cfg.contractAddress, aid⟩ with e | b
          · simp [createHandler, hb, hu, hp, hc, hx]
          · cases b with
            | false =>
              rcases hr : registerAgreement keccak env.txEnv cfg.network true
                  with e | tx
              · simp [createHandler, hb, hu, hp, hc, hx, hr]
              · simp [createHandler, hb, hu, hp, hc, hx, hr]
            | true => simp [createHandler, hb, hu, hp, hc, hx]
      · simp [createHandler, hb, hu, hp]

/-- Claim C1: when the existence check for the computed agreementId answers
`true`, the create handler responds with `alreadyExisted = true` and
`txHash = null` and never calls `registerAgreement`; only when the check
answers `false` does `registerAgreement` appear in the trace — so a retried
create with the same document, creator and paymentRef never double-registers. -/
theorem c1_create_idempotency (keccak : List Nat → String) (cfg : ServerConfig)
    (env : CreateEnv) (input : CreateInput) (cid ptx payer : String)
    (peffs : List Eff) (aid : String)
    (hval : env.bodyValidation = .ok input)
    (hup : env.uploadResult = .ok cid)
    (hpay : processPayment env.payment = (.success ptx payer, peffs))
    (hid : computeAgreementId keccak (keccak input.fileBytes)
        input.creatorAddress ptx = .ok aid) :
    (checkAgreementExists env.reads
        ⟨cfg.rpcUrl, cfg.network, cfg.contractAddress, aid⟩ = .ok true →
      createHandler keccak cfg env =
        (.ok ⟨aid, keccak input.fileBytes, cid, input.creatorAddress, ptx,
            effectiveChainRef cfg, none, none, getAgreementLink aid, some true⟩,
          .upload :: .payment :: peffs ++ [.checkExists]) ∧
      Eff.register ∉ (createHandler keccak cfg env).2) ∧
    (checkAgreementExists env.reads
        ⟨cfg.rpcUrl, cfg.network, cfg.contractAddress, aid⟩ = .ok false →
      Eff.register ∈ (createHandler keccak cfg env).2) := by
  have hpeffs : Eff.register ∉ peffs := by
    have h2 := processPayment_trace_cases env.payment
    rw [hpay] at h2
    rcases h2 with h2 | h2 | h2 <;> simp at h2 <;> subst h2 <;> decide
  constructor
  · intro hex
    have hh : createHandler keccak cfg env =
        (.ok ⟨aid, keccak input.fileBytes, cid, input.creatorAddress, ptx,
            effectiveChainRef cfg, none, none, getAgreementLink aid, some true⟩,
          .upload :: .payment :: peffs ++ [.checkExists]) := by
      simp [createHandler, hval, hup, hpay, hid, hex]
    refine ⟨hh, ?_⟩
    rw [hh]
    simp [hpeffs]
  · intro hex
    cases hreg : registerAgreement keccak env.txEnv cfg.network true with
    | error e => simp [createHandler, hval, hup, hpay, hid, hex, hreg]
    | ok tx => simp [createHandler, hval, hup, hpay, hid, hex, hreg]

/-- Claim C3: the sign handler answers 404 when the agreement does not exist
and 409 when the signer has already signed, in both cases without ever
entering `processPayment` (no Payment Gate invocation, hence no facilitator
call). -/
theorem c3_sign_cheap_failures_before_payment (keccak : List Nat → String)
    (cfg : ServerConfig) (env : SignEnv) (input : SignInput)
    (hval : env.bodyValidation = .ok input) :
    (checkAgreementExists env.reads
        ⟨cfg.rpcUrl, cfg.network, cfg.contractAddress, input.agreementId⟩ =
          .ok false →
      signHandler keccak cfg env =
        (.err 404 "Agreement not found" none, [.checkExists]) ∧
      Eff.payment ∉ (signHandler keccak cfg env).2 ∧
      Eff.verify ∉ (signHandler keccak cfg env).2 ∧
      Eff.settle ∉ (signHandler keccak cfg env).2) ∧
    (checkAgreementExists env.reads
        ⟨cfg.rpcUrl, cfg.network, cfg.contractAddress, input.agreementId⟩ =
          .ok true →
      checkHasSigned env.reads
        ⟨cfg.rpcUrl, cfg.network, cfg.contractAddress, input.agreementId,
          input.signerAddress⟩ = .ok true →
      signHandler keccak cfg env =
        (.err 409 "Already signed" none, [.checkExists, .checkSigned]) ∧
      Eff.payment ∉ (signHandler keccak cfg env).2 ∧
      Eff.verify ∉ (signHandler keccak cfg env).2 ∧
      Eff.settle ∉ (signHandler keccak cfg env).2) := by
  constructor
  · intro hex
    have hh : signHandler keccak cfg env =
        (.err 404 "Agreement not found" none, [.checkExists]) := by
      simp [signHandler, hval, hex]
    exact ⟨hh, by rw [hh]; decide, by rw [hh]; decide, by rw [hh]; decide⟩
  · intro hex hsg
    have hh : signHandler keccak cfg env =
        (.err 409 "Already signed" none, [.checkExists, .checkSigned]) := by
      simp [signHandler, hval, hex, hsg]
    exact ⟨hh, by rw [hh]; decide, by rw [hh]; decide, by rw [hh]; decide⟩

/-- Claim C4: an IPFS upload failure makes the create handler answer 502 with
the payment machinery never reached — `processPayment`, and in particular the
settlement step, is absent from the trace — and, on any create request at
all, the upload event precedes any payment processing in the trace. -/
theorem c4_upload_failure_never_charges (keccak : List Nat → String)
    (cfg : ServerConfig) (env : CreateEnv) (input : CreateInput) (msg : String)
    (hval : env.bodyValidation = .ok input)
    (hup : env.uploadResult = .error msg) :
    createHandler keccak cfg env =
      (.err 502 "IPFS upload failed" none, [Eff.upload]) ∧
    Eff.payment ∉ (createHandler keccak cfg env).2 ∧
    Eff.verify ∉ (createHandler keccak cfg env).2 ∧
    Eff.settle ∉ (createHandler keccak cfg env).2 ∧
    (∀ env2 : CreateEnv, Eff.payment ∈ (createHandler keccak cfg env2).2 →
      (createHandler keccak cfg env2).2.head? = some Eff.upload) := by
  have hh : createHandler keccak cfg env =
      (.err 502 "IPFS upload failed" none, [Eff.upload]) := by
    simp [createHandler, hval, hup]
  refine ⟨hh, by rw [hh]; decide, by rw [hh]; decide, by rw [hh]; decide, ?_⟩
  intro env2 hm
  rcases createHandler_trace_head keccak cfg env2 with h0 | ⟨rest, hr⟩
  · rw [h0] at hm
    simp at hm
  · rw [hr]
    rfl

/-- Witness for C1: a concrete create request whose existence check answers
`true` returns the already-existed response with a null `txHash` and a trace
without a register event. -/
theorem c1_create_idempotency_witness :
    createHandler
        (fun _ => "0x0000000000000000000000000000000000000000000000000000000000000001")
        ⟨"http://rpc", "base-sepolia", "0xc0", none, 0⟩
        ⟨.ok ⟨"agreement.pdf", "0xab5801a7d398351b8be11c439e05c5b3259aec9b", [1]⟩,
          .ok "bafy",
          ⟨some "hdr", none, .ok "payload", ⟨true, none⟩,
            ⟨true, "0x0000000000000000000000000000000000000000000000000000000000000001",
              some "0xp"⟩, "enc"⟩,
          ⟨fun _ _ _ => .ok true, fun _ _ _ _ => .ok false⟩,
          ⟨fun _ => .ok (), fun _ => .ok [0], fun _ => .ok (), fun _ => .ok ()⟩⟩ =
      (.ok ⟨"0x0000000000000000000000000000000000000000000000000000000000000001",
          "0x0000000000000000000000000000000000000000000000000000000000000001",
          "bafy", "0xab5801a7d398351b8be11c439e05c5b3259aec9b",
          "0x0000000000000000000000000000000000000000000000000000000000000001",
          "eip155:84532", none, none,
          getAgreementLink
            "0x0000000000000000000000000000000000000000000000000000000000000001",
          some true⟩,
        [Eff.upload, Eff.payment, Eff.verify, Eff.settle, Eff.checkExists]) :=
  ((c1_create_idempotency
      (fun _ => "0x0000000000000000000000000000000000000000000000000000000000000001")
      ⟨"http://rpc", "base-sepolia", "0xc0", none, 0⟩
      ⟨.ok ⟨"agreement.pdf", "0xab5801a7d398351b8be11c439e05c5b3259aec9b", [1]⟩,
        .ok "bafy",
        ⟨some "hdr", none, .ok "payload", ⟨true, none⟩,
          ⟨true, "0x0000000000000000000000000000000000000000000000000000000000000001",
            some "0xp"⟩, "enc"⟩,
        ⟨fun _ _ _ => .ok true, fun _ _ _ _ => .ok false⟩,
        ⟨fun _ => .ok (), fun _ => .ok [0], fun _ => .ok (), fun _ => .ok ()⟩⟩
      ⟨"agreement.pdf", "0xab5801a7d398351b8be11c439e05c5b3259aec9b", [1]⟩
      "bafy"
      "0x0000000000000000000000000000000000000000000000000000000000000001"
      "0xp" [Eff.verify, Eff.settle]
      "0x0000000000000000000000000000000000000000000000000000000000000001"
      rfl rfl rfl rfl).1 rfl).1

/-- Witness for C3: a concrete sign request for a nonexistent agreement is a
404 whose trace holds only the existence check. -/
theorem c3_sign_cheap_failures_before_payment_witness :
    signHandler (fun _ => "0xdead")
        ⟨"http://rpc", "base-sepolia", "0xc0", none, 0⟩
        ⟨.ok ⟨"0x0000000000000000000000000000000000000000000000000000000000000001",
            "0xab5801a7d398351b8be11c439e05c5b3259aec9b"⟩,
          ⟨fun _ _ _ => .ok false, fun _ _ _ _ => .ok false⟩,
          ⟨some "hdr", none, .ok "payload", ⟨true, none⟩, ⟨true, "0xt", none⟩, "enc"⟩,
          ⟨fun _ => .ok (), fun _ => .ok [0], fun _ => .ok (), fun _ => .ok ()⟩⟩ =
      (.err 404 "Agreement not found" none, [Eff.checkExists]) :=
  ((c3_sign_cheap_failures_before_payment (fun _ => "0xdead")
      ⟨"http://rpc", "base-sepolia", "0xc0", none, 0⟩
      ⟨.ok ⟨"0x0000000000000000000000000000000000000000000000000000000000000001",
          "0xab5801a7d398351b8be11c439e05c5b3259aec9b"⟩,
        ⟨fun _ _ _ => .ok false, fun _ _ _ _ => .ok false⟩,
        ⟨some "hdr", none, .ok "payload", ⟨true, none⟩, ⟨true, "0xt", none⟩, "enc"⟩,
        ⟨fun _ => .ok (), fun _ => .ok [0], fun _ => .ok (), fun _ => .ok ()⟩⟩
      ⟨"0x0000000000000000000000000000000000000000000000000000000000000001",
        "0xab5801a7d398351b8be11c439e05c5b3259aec9b"⟩
      rfl).1 rfl).1

/-- Witness for C4: a concrete create request whose IPFS upload throws is a
502 whose trace holds only the upload event. -/
theorem c4_upload_failure_never_charges_witness :
    createHandler (fun _ => "0xdead")
        ⟨"http://rpc", "base-sepolia", "0xc0", none, 0⟩
        ⟨.ok ⟨"agreement.pdf", "0xab5801a7d398351b8be11c439e05c5b3259aec9b", [1]⟩,
          .error "pinata 500",
          ⟨some "hdr", none, .ok "payload", ⟨true, none⟩, ⟨true, "0xt", none⟩, "enc"⟩,
          ⟨fun _ _ _ => .ok false, fun _ _ _ _ => .ok false⟩,
          ⟨fun _ => .ok (), fun _ => .ok [0], fun _ => .ok (), fun _ => .ok ()⟩⟩ =
      (.err 502 "IPFS upload failed" none, [Eff.upload]) :=
  (c4_upload_failure_never_charges (fun _ => "0xdead")
      ⟨"http://rpc", "base-sepolia", "0xc0", none, 0⟩
      ⟨.ok ⟨"agreement.pdf", "0xab5801a7d398351b8be11c439e05c5b3259aec9b", [1]⟩,
        .error "pinata 500",
        ⟨some "hdr", none, .ok "payload", ⟨true, none⟩, ⟨true, "0xt", none⟩, "enc"⟩,
        ⟨fun _ _ _ => .ok false, fun _ _ _ _ => .ok false⟩,
        ⟨fun _ => .ok (), fun _ => .ok [0], fun _ => .ok (), fun _ => .ok ()⟩⟩
      ⟨"agreement.pdf", "0xab5801a7d398351b8be11c439e05c5b3259aec9b", [1]⟩
      "pinata 500" rfl rfl).1

/-- Claim C9: the lookup route scans creation events only over the window
from `max(contract start block, current block - 99999)` to the current block,
so an agreement whose creation event lies more than 99,999 blocks in the past
is answered 404 "Agreement not found" although it exists on the ledger. -/
theorem c9_lookup_window_bounded (cfg : ServerConfig) (env : GetEnv)
    (id : String) (l0 : LedgerLog)
    (hid : isBytes32Hex id = true)
    (_hmem : l0 ∈ env.ledger)
    (_hmatch : matchesCreated cfg.contractAddress id l0 = true)
    (hold : ∀ l ∈ env.ledger, matchesCreated cfg.contractAddress id l = true →
      env.currentBlock - l.blockNumber > 99999) :
    getAgreementHandler cfg env id = .err 404 "Agreement not found" ∧
    (∀ cb sb : Int, logWindowStart cb sb = max sb (cb - 99999)) := by
  have hwin : ∀ cb sb : Int, logWindowStart cb sb = max sb (cb - 99999) := by
    intro cb sb
    simp only [logWindowStart, max_def]
    split <;> split <;> omega
  refine ⟨?_, hwin⟩
  have hnil : getLogs env.ledger (matchesCreated cfg.contractAddress id)
      (logWindowStart env.currentBlock cfg.contractStartBlock)
      env.currentBlock = [] := by
    unfold getLogs
    rw [List.filter_eq_nil_iff]
    intro l hl
    by_cases hm : matchesCreated cfg.contractAddress id l = true
    · have hfar := hold l hl hm
      have hge : logWindowStart env.currentBlock cfg.contractStartBlock ≥
          env.currentBlock - 99999 := by
        rw [hwin]
        exact le_max_right _ _
      simp only [hm, Bool.true_and, Bool.and_eq_true, decide_eq_true_eq,
        not_and]
      intro hle
      omega
    · simp [hm]
  simp [getAgreementHandler, hid, hnil]

/-- Witness for C9: a creation event at block 0 with the chain at block
200,000 is outside the scanned window, so the lookup answers 404. -/
theorem c9_lookup_window_bounded_witness :
    getAgreementHandler ⟨"http://rpc", "base-sepolia", "0xc0", none, 0⟩
        ⟨200000,
          [⟨"0xc0", 0,
            .created
              "0x0000000000000000000000000000000000000000000000000000000000000001"
              "0xd0" "bafy" "0xa0" "0xp0" "eip155:84532"⟩]⟩
        "0x0000000000000000000000000000000000000000000000000000000000000001" =
      .err 404 "Agreement not found" :=
  (c9_lookup_window_bounded ⟨"http://rpc", "base-sepolia", "0xc0", none, 0⟩
      ⟨200000,
        [⟨"0xc0", 0,
          .created
            "0x0000000000000000000000000000000000000000000000000000000000000001"
            "0xd0" "bafy" "0xa0" "0xp0" "eip155:84532"⟩]⟩
      "0x0000000000000000000000000000000000000000000000000000000000000001"
      ⟨"0xc0", 0,
        .created
          "0x0000000000000000000000000000000000000000000000000000000000000001"
          "0xd0" "bafy" "0xa0" "0xp0" "eip155:84532"⟩
      (by decide) (by decide) (by decide) (by decide)).1

end LinkSign402
